import Mathlib

/-!
Shallow embedding of the MAVez flight manager (`flight_manger.py`).

The `Flight` class orchestrates a mission queue over external `Controller`,
`Mission` and `Coordinate` collaborators.  The collaborators are outside the
modelled source file; where their behaviour matters it is modelled from the
specification (see the individual doc comments).  External calls return
integer result codes; these are supplied to each modelled operation as
explicit oracle arguments, and the externally visible calls an operation
performs are recorded in an `Action` trace.
-/

namespace MavEz

/-- Geographic coordinate (latitude, longitude, altitude), numeric fields
modelled over ℚ. -/
structure Coordinate where
  lat : Rat
  lon : Rat
  alt : Rat
deriving DecidableEq

/-- One mission command record, mirroring the `Mission_Item` constructor
arguments used by `build_airdrop_mission`. -/
structure Mission_Item where
  seq : Nat
  frame : Nat
  command : Nat
  current : Nat
  auto_continue : Nat
  coordinate : Coordinate
  type : Nat
  param1 : Rat
  param2 : Rat
  param3 : Rat
  param4 : Rat
deriving DecidableEq

/-- Role tag distinguishing the five `Mission` objects owned by `Flight`
(they are distinct Python objects) and ad-hoc missions created by
`append_mission`. -/
inductive MissionRole where
  | takeoffRole
  | detectRole
  | landRole
  | airdropRole
  | geofenceRole
  | adhocRole
deriving DecidableEq

/-- A `Mission` as consumed by the core: a role, a type tag (0 = normal,
1 = geofence) and an ordered item list. -/
structure Mission where
  role : MissionRole
  type : Nat
  items : List Mission_Item
deriving DecidableEq

/-- `Mission.get_length`: the number of items. -/
def Mission.get_length (m : Mission) : Nat := m.items.length

/-- Modelled from the spec: `Mission.add_mission_item` is external to the
modelled source file; per the spec it inserts the given item, appending it
to the item list. -/
def Mission.add_mission_item (m : Mission) (it : Mission_Item) : Mission :=
  { m with items := m.items ++ [it] }

/-- Renumber a list of items with consecutive sequence numbers counting up
from `first_seq`. -/
def renumber (first_seq : Nat) : List Mission_Item → List Mission_Item
  | [] => []
  | it :: rest => { it with seq := first_seq } :: renumber (first_seq + 1) rest

/-- Modelled from the spec: `Mission.load_mission_from_file` is external to
the modelled source file; per the spec it supports partial loading by index
range with re-numbering, so it loads the file rows with indices in
`[start, stop)` into the mission, renumbering their sequence numbers
consecutively from `first_seq`.  A mission file is modelled as the list of
items it defines.  The Python defaults are `start = 0`, `stop = file
length`, `first_seq = 0`; callers of the model pass them explicitly. -/
def Mission.load_mission_from_file (m : Mission) (file : List Mission_Item)
    (start : Nat) (stop : Nat) (first_seq : Nat) : Mission :=
  { m with items := m.items ++ renumber first_seq ((file.drop start).take (stop - start)) }

/-- The externally visible calls a `Flight` operation can make on the
controller or on a mission. -/
inductive Action where
  | setHome
  | load
  | send
  | clear
  | setMode
  | arm
  | enableGeofence
  | sleep
  | waitWaypoint (target : Int) (timeout : Nat)
deriving DecidableEq

/-- Modelled from the spec: the controller's distinguished timeout code.
The source docstring of `wait_and_send_next_mission` documents it as 101
("101 if the response timed out"). -/
def Controller.TIMEOUT_ERROR : Int := 101

/-- The state of a `Flight` object: the preflight gate, the five owned
missions, and the pending mission queue. -/
structure Flight where
  preflight_check_done : Bool
  takeoff_mission : Mission
  detect_mission : Mission
  land_mission : Mission
  airdrop_mission : Mission
  geofence : Mission
  mission_list : List Mission
deriving DecidableEq

def Flight.PREFLIGHT_CHECK_ERROR : Int := 301

def Flight.DETECT_LOAD_ERROR : Int := 302

/-- `Flight.__init__`: gate false, five empty missions (geofence with type
tag 1), queue holding exactly the takeoff mission. -/
def mkFlight : Flight :=
  let takeoffM : Mission := ⟨.takeoffRole, 0, []⟩
  { preflight_check_done := false
    takeoff_mission := takeoffM
    detect_mission := ⟨.detectRole, 0, []⟩
    land_mission := ⟨.landRole, 0, []⟩
    airdrop_mission := ⟨.airdropRole, 0, []⟩
    geofence := ⟨.geofenceRole, 1, []⟩
    mission_list := [takeoffM] }

/-- The static `errors_dict` table inside `Flight.decode_error`. -/
def errors_dict (error_code : Int) : Option String :=
  if error_code = 301 then some "\nPREFLIGHT CHECK ERROR (301)\n"
  else if error_code = 302 then some "\nDETECT LOAD ERROR (302)\n"
  else none

/-- `Flight.decode_error`.  The controller's decoder and the flight-protocol
decoder (`decode_flight_error`) are external to the modelled source file and
are passed as abstract decoders (modelled from the spec, which reserves
range [100,200) for the former and [200,300) for the latter).  The function
is a pure lookup: it takes no flight state and returns only a string. -/
def decode_error (controller_decode : Int → String)
    (decode_flight_error : Int → String) (error_code : Int) : String :=
  if 100 ≤ error_code ∧ error_code < 200 then controller_decode error_code
  else if 200 ≤ error_code ∧ error_code < 300 then decode_flight_error error_code
  else (errors_dict error_code).getD ("UNKNOWN ERROR (" ++ toString error_code ++ ")")

/-- `Flight.takeoff`: gate check, then load / send / sleep / set mode / arm,
fail-fast on each oracle result. -/
def Flight.takeoff (f : Flight) (takeoff_mission_file : List Mission_Item)
    (load_res send_res mode_res arm_res : Int) : Int × Flight × List Action :=
  if f.preflight_check_done = false then (Flight.PREFLIGHT_CHECK_ERROR, f, [])
  else
    let f1 : Flight :=
      { f with takeoff_mission :=
          (f.takeoff_mission.load_mission_from_file takeoff_mission_file 0
            takeoff_mission_file.length 0) }
    if load_res ≠ 0 then (load_res, f1, [.load])
    else if send_res ≠ 0 then (send_res, f1, [.load, .send])
    else if mode_res ≠ 0 then (mode_res, f1, [.load, .send, .sleep, .setMode])
    else if arm_res ≠ 0 then (arm_res, f1, [.load, .send, .sleep, .setMode, .arm])
    else (0, f1, [.load, .send, .sleep, .setMode, .arm])

/-- `Flight.preflight_check`: set home, load geofence, send geofence, load
land mission, enable geofence, fail-fast on each oracle result; only full
success sets the gate. -/
def Flight.preflight_check (f : Flight)
    (land_mission_file geofence_file : List Mission_Item)
    (home_res geo_load_res geo_send_res land_load_res enable_res : Int) :
    Int × Flight :=
  if home_res ≠ 0 then (home_res, f)
  else
    let f1 : Flight :=
      { f with geofence :=
          f.geofence.load_mission_from_file geofence_file 0 geofence_file.length 0 }
    if geo_load_res ≠ 0 then (geo_load_res, f1)
    else if geo_send_res ≠ 0 then (geo_send_res, f1)
    else
      let f2 : Flight :=
        { f1 with land_mission :=
            (f1.land_mission.load_mission_from_file land_mission_file 0
              land_mission_file.length 0) }
      if land_load_res ≠ 0 then (land_load_res, f2)
      else if enable_res ≠ 0 then (enable_res, f2)
      else (0, { f2 with preflight_check_done := true })

/-- `Flight.build_airdrop_mission`.  `Coordinate.offset_coordinate` is
external geodesic math (modelled from the spec as the abstract function
`offset_coordinate`, returning a new coordinate offset by a distance at a
compass heading).  The source sets the target coordinate's altitude, then
computes entry and exit points by offsetting the target at `heading` and
`heading + 180`, loads the file rows `[0, target_index)`, appends the
entry / target / exit items with sequence numbers `target_index`,
`target_index + 1`, `target_index + 2`, and finally loads the file rows
from `target_index` on, renumbered from `target_index + 3`. -/
def Flight.build_airdrop_mission (f : Flight)
    (offset_coordinate : Coordinate → Rat → Rat → Coordinate)
    (target_coordinate : Coordinate) (airdrop_mission_file : List Mission_Item)
    (target_index : Nat) (altitude : Rat) (heading : Rat) (buffer_distance : Rat)
    (load1_res add1_res add2_res add3_res load2_res : Int) : Int × Flight :=
  let m0 : Mission :=
    f.airdrop_mission.load_mission_from_file airdrop_mission_file 0 target_index 0
  if load1_res ≠ 0 then (load1_res, { f with airdrop_mission := m0 })
  else
    let target : Coordinate := { target_coordinate with alt := altitude }
    let entry_coordinate : Coordinate := offset_coordinate target buffer_distance heading
    let exit_coordinate : Coordinate := offset_coordinate target buffer_distance (heading + 180)
    let entry_mission_item : Mission_Item :=
      ⟨target_index, 3, 16, 0, 1, entry_coordinate, 0, 0, 0, 0, 0⟩
    let target_mission_item : Mission_Item :=
      ⟨target_index + 1, 3, 16, 0, 1, target, 0, 0, 0, 0, 0⟩
    let exit_mission_item : Mission_Item :=
      ⟨target_index + 2, 3, 16, 0, 1, exit_coordinate, 0, 0, 0, 0, 0⟩
    let m1 : Mission := m0.add_mission_item entry_mission_item
    if add1_res ≠ 0 then (add1_res, { f with airdrop_mission := m1 })
    else
      let m2 : Mission := m1.add_mission_item target_mission_item
      if add2_res ≠ 0 then (add2_res, { f with airdrop_mission := m2 })
      else
        let m3 : Mission := m2.add_mission_item exit_mission_item
        if add3_res ≠ 0 then (add3_res, { f with airdrop_mission := m3 })
        else
          let m4 : Mission :=
            m3.load_mission_from_file airdrop_mission_file target_index
              airdrop_mission_file.length (target_index + 3)
          if load2_res ≠ 0 then (load2_res, { f with airdrop_mission := m4 })
          else (0, { f with airdrop_mission := m4 })

/-- `Flight.append_airdrop_mission`: push the airdrop mission to the queue
tail, no validation. -/
def Flight.append_airdrop_mission (f : Flight) : Flight :=
  { f with mission_list := f.mission_list ++ [f.airdrop_mission] }

/-- `Flight.append_detect_mission`.  If the detect mission is empty and a
file is supplied, the file is loaded; the source does not inspect the load
result (`load_res` is accepted but never consulted, mirroring the source's
discarded return value).  If the detect mission is empty and no file is
supplied, returns `DETECT_LOAD_ERROR` without pushing.  In every other path
the detect mission is pushed and the Python function returns `None`,
modelled as 0. -/
def Flight.append_detect_mission (f : Flight)
    (detect_mission_file : Option (List Mission_Item)) (load_res : Int) :
    Int × Flight × List Action :=
  if f.detect_mission.get_length = 0 then
    match detect_mission_file with
    | some file =>
      let f1 : Flight :=
        { f with detect_mission :=
            f.detect_mission.load_mission_from_file file 0 file.length 0 }
      (0, { f1 with mission_list := f1.mission_list ++ [f1.detect_mission] }, [.load])
    | none => (Flight.DETECT_LOAD_ERROR, f, [])
  else
    (0, { f with mission_list := f.mission_list ++ [f.detect_mission] }, [])

/-- `Flight.append_mission`: build a fresh ad-hoc mission, load it fully
from the file, push it only on load success. -/
def Flight.append_mission (f : Flight) (filename : List Mission_Item)
    (load_res : Int) : Int × Flight :=
  let mission : Mission :=
    Mission.load_mission_from_file ⟨.adhocRole, 0, []⟩ filename 0 filename.length 0
  if load_res ≠ 0 then (load_res, f)
  else (0, { f with mission_list := f.mission_list ++ [mission] })

/-- Observable outcome of `wait_and_send_next_mission`: return code, updated
flight, the popped current mission, the selected next mission, and the
trace of external calls. -/
structure AdvanceResult where
  ret : Int
  flight : Flight
  currentMission : Mission
  nextMission : Mission
  trace : List Action
deriving DecidableEq

/-- `Flight.wait_and_send_next_mission`:  pop the queue head as the current
mission (`none` models the Python `IndexError` on an empty queue); select
the land mission as next if the queue emptied, else the new head without
popping it; wait for the current mission's final index with timeout 30; on
the controller timeout code return it at once; otherwise clear the current
mission (result discarded — `clear_res` is accepted but never consulted,
mirroring the source), send the next mission, set mode AUTO, and return the
mode result if non-zero, else the send result. -/
def Flight.wait_and_send_next_mission (f : Flight)
    (wait_res clear_res send_res mode_res : Int) : Option AdvanceResult :=
  match f.mission_list with
  | [] => none
  | current_mission :: rest =>
    let f1 : Flight := { f with mission_list := rest }
    let next_mission : Mission :=
      match rest with
      | [] => f.land_mission
      | m :: _ => m
    let target_index : Int := (current_mission.get_length : Int) - 1
    if wait_res = Controller.TIMEOUT_ERROR then
      some ⟨wait_res, f1, current_mission, next_mission,
        [.waitWaypoint target_index 30]⟩
    else if mode_res ≠ 0 then
      some ⟨mode_res, f1, current_mission, next_mission,
        [.waitWaypoint target_index 30, .clear, .send, .setMode]⟩
    else
      some ⟨send_res, f1, current_mission, next_mission,
        [.waitWaypoint target_index 30, .clear, .send, .setMode]⟩

/-! Concrete sample values used by the closed witness statements. -/

/-- A sample coordinate. -/
def sampleCoordinate : Coordinate := ⟨0, 0, 0⟩

/-- A sample mission item. -/
def sampleItem : Mission_Item := ⟨0, 3, 16, 0, 1, sampleCoordinate, 0, 0, 0, 0, 0⟩

/-- A flight state whose detect mission holds one item. -/
def flightWithDetect : Flight :=
  { mkFlight with detect_mission := ⟨.detectRole, 0, [sampleItem]⟩ }

/-- A flight state whose preflight gate is set. -/
def flightGateSet : Flight :=
  { mkFlight with preflight_check_done := true }

/-- A sample geodesic offset function standing in for the external
`Coordinate.offset_coordinate` in witnesses. -/
def sampleOffset : Coordinate → Rat → Rat → Coordinate :=
  fun c d h => ⟨c.lat + d, c.lon + h, c.alt⟩

/-! Theorems for the claims, in claim order. -/

/-- C9: Immediately after construction of a `Flight`, the mission queue is
not empty: it contains exactly one entry, the takeoff mission, before any
append operation has been called. -/
theorem C9_init_queue_singleton :
    mkFlight.mission_list = [mkFlight.takeoff_mission] ∧
    mkFlight.mission_list.length = 1 ∧ mkFlight.mission_list ≠ [] := by
  refine ⟨rfl, rfl, by decide⟩

/-- C3: In every state with the preflight gate false, `takeoff` returns the
preflight-gate code `PREFLIGHT_CHECK_ERROR` (301), leaves the flight
unchanged, and performs no controller or mission operation (empty action
trace: no load, upload, mode change, or arm). -/
theorem C3_takeoff_requires_gate (f : Flight) (file : List Mission_Item)
    (load_res send_res mode_res arm_res : Int)
    (h : f.preflight_check_done = false) :
    f.takeoff file load_res send_res mode_res arm_res =
      (Flight.PREFLIGHT_CHECK_ERROR, f, []) ∧ Flight.PREFLIGHT_CHECK_ERROR = 301 := by
  refine ⟨by simp [Flight.takeoff, h], rfl⟩

/-- C3 witness: the freshly constructed flight has the gate false and
`takeoff` fails fast with code 301 and an empty trace. -/
theorem C3_takeoff_requires_gate_witness :
    mkFlight.preflight_check_done = false ∧
    (mkFlight.takeoff [sampleItem] 0 0 0 0 =
      (Flight.PREFLIGHT_CHECK_ERROR, mkFlight, []) ∧
      Flight.PREFLIGHT_CHECK_ERROR = 301) :=
  ⟨rfl, C3_takeoff_requires_gate mkFlight [sampleItem] 0 0 0 0 rfl⟩

/-- C8: whenever the detect mission already has at least one item,
`append_detect_mission` pushes it as-is without loading the supplied file:
result code 0, the unchanged detect mission is appended to the queue, the
detect mission's item count is unchanged, and the trace holds no load.
The supplied file (and load oracle result) are arbitrary, covering a second
call with a different file than an earlier call. -/
theorem C8_append_detect_as_is (f : Flight)
    (detect_mission_file : Option (List Mission_Item)) (load_res : Int)
    (h : f.detect_mission.get_length ≠ 0) :
    f.append_detect_mission detect_mission_file load_res =
      (0, { f with mission_list := f.mission_list ++ [f.detect_mission] }, []) ∧
    (f.append_detect_mission detect_mission_file load_res).2.1.detect_mission.get_length =
      f.detect_mission.get_length := by
  have he : f.append_detect_mission detect_mission_file load_res =
      (0, { f with mission_list := f.mission_list ++ [f.detect_mission] }, []) := by
    simp [Flight.append_detect_mission, h]
  exact ⟨he, by rw [he]⟩

/-- C8 witness: a flight with a one-item detect mission, handed a different
file, keeps the detect item count at 1 and loads nothing. -/
theorem C8_append_detect_as_is_witness :
    flightWithDetect.detect_mission.get_length ≠ 0 ∧
    (flightWithDetect.append_detect_mission (some [sampleItem, sampleItem]) 0).2.1.detect_mission.get_length =
      flightWithDetect.detect_mission.get_length :=
  ⟨by decide,
    (C8_append_detect_as_is flightWithDetect (some [sampleItem, sampleItem]) 0 (by decide)).2⟩

/-- `takeoff` never writes the preflight gate. -/
theorem takeoff_gate_eq (f : Flight) (file : List Mission_Item) (a b c d : Int) :
    (f.takeoff file a b c d).2.1.preflight_check_done = f.preflight_check_done := by
  unfold Flight.takeoff
  repeat' split
  all_goals rfl

/-- A failing `preflight_check` run never writes the preflight gate. -/
theorem preflight_check_fail_gate_eq (f : Flight)
    (lf gf : List Mission_Item) (r1 r2 r3 r4 r5 : Int)
    (h : (f.preflight_check lf gf r1 r2 r3 r4 r5).1 ≠ 0) :
    (f.preflight_check lf gf r1 r2 r3 r4 r5).2.preflight_check_done =
      f.preflight_check_done := by
  unfold Flight.preflight_check at h ⊢
  repeat' split at h <;> first | rfl | simp_all

/-- `preflight_check` never clears an already set gate. -/
theorem preflight_check_gate_mono (f : Flight)
    (lf gf : List Mission_Item) (r1 r2 r3 r4 r5 : Int)
    (h : f.preflight_check_done = true) :
    (f.preflight_check lf gf r1 r2 r3 r4 r5).2.preflight_check_done = true := by
  unfold Flight.preflight_check
  repeat' split
  all_goals first | rfl | exact h

/-- `build_airdrop_mission` never writes the preflight gate. -/
theorem build_airdrop_gate_eq (f : Flight)
    (off : Coordinate → Rat → Rat → Coordinate) (tc : Coordinate)
    (file : List Mission_Item) (k : Nat) (altitude heading buffer : Rat)
    (a b c d e : Int) :
    (f.build_airdrop_mission off tc file k altitude heading buffer a b c d e).2.preflight_check_done =
      f.preflight_check_done := by
  unfold Flight.build_airdrop_mission
  repeat' split
  all_goals rfl

/-- `append_airdrop_mission` never writes the preflight gate. -/
theorem append_airdrop_gate_eq (f : Flight) :
    f.append_airdrop_mission.preflight_check_done = f.preflight_check_done := rfl

/-- `append_detect_mission` never writes the preflight gate. -/
theorem append_detect_gate_eq (f : Flight)
    (file : Option (List Mission_Item)) (lr : Int) :
    (f.append_detect_mission file lr).2.1.preflight_check_done =
      f.preflight_check_done := by
  unfold Flight.append_detect_mission
  repeat' split
  all_goals rfl

/-- `append_mission` never writes the preflight gate. -/
theorem append_mission_gate_eq (f : Flight) (file : List Mission_Item) (lr : Int) :
    (f.append_mission file lr).2.preflight_check_done = f.preflight_check_done := by
  unfold Flight.append_mission
  split
  all_goals rfl

/-- `wait_and_send_next_mission` never writes the preflight gate. -/
theorem wait_and_send_gate_eq (f : Flight) (w c s m : Int) (r : AdvanceResult)
    (h : f.wait_and_send_next_mission w c s m = some r) :
    r.flight.preflight_check_done = f.preflight_check_done := by
  unfold Flight.wait_and_send_next_mission at h
  split at h
  · exact absurd h (by simp)
  · repeat' split at h
    all_goals (injection h with h2; subst h2; rfl)

/-- C2: `preflight_check_done` is false at construction; a run of
`preflight_check` that returns a non-zero code (equivalently, under
fail-fast, a run in which some executed step reported non-zero) leaves a
false gate false; and no operation of `Flight` ever resets the gate from
true to false — every modelled operation preserves a set gate. -/
theorem C2_gate_invariant :
    mkFlight.preflight_check_done = false ∧
    (∀ f lf gf r1 r2 r3 r4 r5, f.preflight_check_done = false →
      (Flight.preflight_check f lf gf r1 r2 r3 r4 r5).1 ≠ 0 →
      (Flight.preflight_check f lf gf r1 r2 r3 r4 r5).2.preflight_check_done = false) ∧
    (∀ f lf gf r1 r2 r3 r4 r5, f.preflight_check_done = true →
      (Flight.preflight_check f lf gf r1 r2 r3 r4 r5).2.preflight_check_done = true) ∧
    (∀ f file a b c d, f.preflight_check_done = true →
      (Flight.takeoff f file a b c d).2.1.preflight_check_done = true) ∧
    (∀ f off tc file k altitude heading buffer a b c d e,
      f.preflight_check_done = true →
      (Flight.build_airdrop_mission f off tc file k altitude heading buffer
        a b c d e).2.preflight_check_done = true) ∧
    (∀ f, f.preflight_check_done = true →
      (Flight.append_airdrop_mission f).preflight_check_done = true) ∧
    (∀ f file lr, f.preflight_check_done = true →
      (Flight.append_detect_mission f file lr).2.1.preflight_check_done = true) ∧
    (∀ f file lr, f.preflight_check_done = true →
      (Flight.append_mission f file lr).2.preflight_check_done = true) ∧
    (∀ f w c s m r, Flight.wait_and_send_next_mission f w c s m = some r →
      f.preflight_check_done = true → r.flight.preflight_check_done = true) := by
  refine ⟨rfl, ?_, ?_, ?_, ?_, ?_, ?_, ?_, ?_⟩
  · intro f lf gf r1 r2 r3 r4 r5 h0 hr
    rw [preflight_check_fail_gate_eq f lf gf r1 r2 r3 r4 r5 hr]
    exact h0
  · exact fun f lf gf r1 r2 r3 r4 r5 h => preflight_check_gate_mono f lf gf r1 r2 r3 r4 r5 h
  · exact fun f file a b c d h => (takeoff_gate_eq f file a b c d).trans h
  · exact fun f off tc file k altitude heading buffer a b c d e h =>
      (build_airdrop_gate_eq f off tc file k altitude heading buffer a b c d e).trans h
  · exact fun f h => (append_airdrop_gate_eq f).trans h
  · exact fun f file lr h => (append_detect_gate_eq f file lr).trans h
  · exact fun f file lr h => (append_mission_gate_eq f file lr).trans h
  · exact fun f w c s m r hr h => (wait_and_send_gate_eq f w c s m r hr).trans h

/-- C2 witness: a failing first step (home-set result 7) leaves the fresh
flight's gate false, exercised through the invariant theorem. -/
theorem C2_gate_invariant_witness :
    mkFlight.preflight_check_done = false ∧
    (Flight.preflight_check mkFlight [] [] 7 0 0 0 0).1 ≠ 0 ∧
    (Flight.preflight_check mkFlight [] [] 7 0 0 0 0).2.preflight_check_done = false :=
  ⟨rfl, by decide, C2_gate_invariant.2.1 mkFlight [] [] 7 0 0 0 0 rfl (by decide)⟩

/-- A string with a non-empty first component of a double append is
non-empty. -/
theorem append3_ne_empty (a b c : String) (ha : 0 < a.length) :
    a ++ b ++ c ≠ "" := by
  intro h
  have h2 := congrArg String.length h
  rw [String.length_append, String.length_append] at h2
  rw [show ("" : String).length = 0 from rfl] at h2
  omega

/-- C6: for every integer error code `c`, `decode_error` returns a
non-empty message — delegating `[100,200)` to the controller decoder and
`[200,300)` to the flight-protocol decoder (both abstract, assumed
non-empty), looking up the remaining codes in the static table with an
unknown-error message carrying the raw code as fallback.  The function is a
pure lookup of the code: it takes no flight state and returns only a
string, so it mutates no `Flight` state. -/
theorem C6_decode_error_total (controller_decode decode_flight_error : Int → String)
    (hc : ∀ c, controller_decode c ≠ "")
    (hf : ∀ c, decode_flight_error c ≠ "") (c : Int) :
    decode_error controller_decode decode_flight_error c ≠ "" ∧
    (100 ≤ c → c < 200 →
      decode_error controller_decode decode_flight_error c = controller_decode c) ∧
    (200 ≤ c → c < 300 →
      decode_error controller_decode decode_flight_error c = decode_flight_error c) ∧
    (¬ (100 ≤ c ∧ c < 200) → ¬ (200 ≤ c ∧ c < 300) →
      decode_error controller_decode decode_flight_error c =
        (errors_dict c).getD ("UNKNOWN ERROR (" ++ toString c ++ ")")) := by
  refine ⟨?_, ?_, ?_, ?_⟩
  · unfold decode_error
    split
    · exact hc c
    · split
      · exact hf c
      · unfold errors_dict
        split
        · exact (by decide : ("\nPREFLIGHT CHECK ERROR (301)\n" : String) ≠ "")
        · split
          · exact (by decide : ("\nDETECT LOAD ERROR (302)\n" : String) ≠ "")
          · exact append3_ne_empty "UNKNOWN ERROR (" (toString c) ")" (by decide)
  · intro h1 h2
    unfold decode_error
    rw [if_pos ⟨h1, h2⟩]
  · intro h1 h2
    unfold decode_error
    have hno : ¬ (100 ≤ c ∧ c < 200) := by omega
    rw [if_neg hno, if_pos ⟨h1, h2⟩]
  · intro h1 h2
    unfold decode_error
    rw [if_neg h1, if_neg h2]

/-- C6 witness: with concrete non-empty delegate decoders, code 150 decodes
to the controller decoder's non-empty message. -/
theorem C6_decode_error_total_witness :
    (∀ c : Int, (fun _ : Int => "CONTROLLER FAULT") c ≠ "") ∧
    (∀ c : Int, (fun _ : Int => "FLIGHT FAULT") c ≠ "") ∧
    decode_error (fun _ => "CONTROLLER FAULT") (fun _ => "FLIGHT FAULT") 150 ≠ "" :=
  ⟨fun _ => (by decide : ("CONTROLLER FAULT" : String) ≠ ""),
    fun _ => (by decide : ("FLIGHT FAULT" : String) ≠ ""),
    (C6_decode_error_total (fun _ => "CONTROLLER FAULT") (fun _ => "FLIGHT FAULT")
      (fun _ => (by decide : ("CONTROLLER FAULT" : String) ≠ ""))
      (fun _ => (by decide : ("FLIGHT FAULT" : String) ≠ "")) 150).1⟩

/-- C1: on a non-empty queue, `wait_and_send_next_mission` pops the head as
the current mission; if the queue is then empty the land mission is
selected as next, otherwise the new head is selected as next without being
removed — it is still at the head of the remaining queue. -/
theorem C1_queue_advancement (f : Flight) (cur : Mission) (rest : List Mission)
    (hq : f.mission_list = cur :: rest) (w c s m : Int) :
    ∃ r, f.wait_and_send_next_mission w c s m = some r ∧
      r.currentMission = cur ∧
      r.flight.mission_list = rest ∧
      r.nextMission = rest.headD f.land_mission ∧
      (∀ n rest2, rest = n :: rest2 →
        r.nextMission = n ∧ r.flight.mission_list.head? = some n) := by
  cases rest with
  | nil =>
    unfold Flight.wait_and_send_next_mission
    rw [hq]
    dsimp only
    split
    · exact ⟨_, rfl, rfl, rfl, rfl, fun n rest2 hr => by cases hr⟩
    · split
      · exact ⟨_, rfl, rfl, rfl, rfl, fun n rest2 hr => by cases hr⟩
      · exact ⟨_, rfl, rfl, rfl, rfl, fun n rest2 hr => by cases hr⟩
  | cons n0 rest0 =>
    unfold Flight.wait_and_send_next_mission
    rw [hq]
    dsimp only
    split
    · exact ⟨_, rfl, rfl, rfl, rfl, fun n rest2 hr => by cases hr; exact ⟨rfl, rfl⟩⟩
    · split
      · exact ⟨_, rfl, rfl, rfl, rfl, fun n rest2 hr => by cases hr; exact ⟨rfl, rfl⟩⟩
      · exact ⟨_, rfl, rfl, rfl, rfl, fun n rest2 hr => by cases hr; exact ⟨rfl, rfl⟩⟩

/-- C1 witness: advancing the freshly constructed flight pops the takeoff
mission and, the queue being empty, selects the land mission as next. -/
theorem C1_queue_advancement_witness :
    mkFlight.mission_list = (⟨.takeoffRole, 0, []⟩ : Mission) :: [] ∧
    (∃ r, mkFlight.wait_and_send_next_mission 0 0 0 0 = some r ∧
      r.currentMission = (⟨.takeoffRole, 0, []⟩ : Mission) ∧
      r.flight.mission_list = [] ∧
      r.nextMission = List.headD [] mkFlight.land_mission ∧
      (∀ n rest2, ([] : List Mission) = n :: rest2 →
        r.nextMission = n ∧ r.flight.mission_list.head? = some n)) :=
  ⟨rfl, C1_queue_advancement mkFlight ⟨.takeoffRole, 0, []⟩ [] rfl 0 0 0 0⟩

/-- C7 counterexample: on the one-entry queue of a fresh flight, a timed-out
wait returns the timeout code, but the selected next mission is the land
mission while the remaining queue is empty — so the selected next mission
is not at the head of the queue, contradicting the claim as stated. -/
theorem C7_timeout_counterexample :
    (Flight.wait_and_send_next_mission mkFlight 101 0 0 0).map
        (fun r => (r.ret, r.flight.mission_list, r.nextMission.role)) =
      some (101, [], MissionRole.landRole) := by decide

/-- C7 (amended): on a timed-out wait, `wait_and_send_next_mission` returns
the controller's timeout code, performs no clear and no upload (the trace
holds only the waypoint wait), and leaves the queue equal to the tail of
the original queue; when that tail is non-empty the selected next mission
is still at its head (unconsumed), and when it is empty the selected next
was the land mission, which is never stored in the queue. -/
theorem C7_timeout_no_handoff (f : Flight) (cur : Mission) (rest : List Mission)
    (hq : f.mission_list = cur :: rest) (c s m : Int) :
    ∃ r, f.wait_and_send_next_mission Controller.TIMEOUT_ERROR c s m = some r ∧
      r.ret = Controller.TIMEOUT_ERROR ∧
      r.trace = [Action.waitWaypoint ((cur.get_length : Int) - 1) 30] ∧
      Action.clear ∉ r.trace ∧ Action.send ∉ r.trace ∧
      r.flight.mission_list = rest ∧
      (∀ n rest2, rest = n :: rest2 →
        r.nextMission = n ∧ r.flight.mission_list.head? = some n) ∧
      (rest = [] → r.nextMission = f.land_mission) := by
  unfold Flight.wait_and_send_next_mission
  rw [hq]
  dsimp only
  rw [if_pos rfl]
  refine ⟨_, rfl, rfl, rfl, by simp, by simp, rfl, ?_, ?_⟩
  · intro n rest2 hr; subst hr; exact ⟨rfl, rfl⟩
  · intro hr; subst hr; rfl

/-- C7 witness: a two-entry queue timing out keeps the selected next
mission at the head of the remaining queue. -/
theorem C7_timeout_no_handoff_witness :
    flightWithDetect.append_airdrop_mission.mission_list =
      (⟨.takeoffRole, 0, []⟩ : Mission) :: [⟨.airdropRole, 0, []⟩] ∧
    (∃ r, flightWithDetect.append_airdrop_mission.wait_and_send_next_mission
        Controller.TIMEOUT_ERROR 0 0 0 = some r ∧
      r.ret = Controller.TIMEOUT_ERROR ∧
      r.trace = [Action.waitWaypoint (((⟨.takeoffRole, 0, []⟩ : Mission).get_length : Int) - 1) 30] ∧
      Action.clear ∉ r.trace ∧ Action.send ∉ r.trace ∧
      r.flight.mission_list = [⟨.airdropRole, 0, []⟩] ∧
      (∀ n rest2, ([(⟨.airdropRole, 0, []⟩ : Mission)] : List Mission) = n :: rest2 →
        r.nextMission = n ∧ r.flight.mission_list.head? = some n) ∧
      (([(⟨.airdropRole, 0, []⟩ : Mission)] : List Mission) = [] →
        r.nextMission = flightWithDetect.append_airdrop_mission.land_mission)) :=
  ⟨rfl, C7_timeout_no_handoff flightWithDetect.append_airdrop_mission
    ⟨.takeoffRole, 0, []⟩ [⟨.airdropRole, 0, []⟩] rfl 0 0 0⟩

/-- C10: for any wait result other than the controller's timeout code and
any clear result whatsoever, the handoff proceeds — the trace shows the
wait followed by clear, upload and mode set — and the return value is the
mode-set result when non-zero, else the upload result (so it depends only
on those two). -/
theorem C10_non_timeout_handoff (f : Flight) (cur : Mission) (rest : List Mission)
    (hq : f.mission_list = cur :: rest) (w c s m : Int)
    (hw : w ≠ Controller.TIMEOUT_ERROR) :
    f.wait_and_send_next_mission w c s m =
      some ⟨if m ≠ 0 then m else s,
        { f with mission_list := rest },
        cur,
        rest.headD f.land_mission,
        [Action.waitWaypoint ((cur.get_length : Int) - 1) 30, Action.clear,
          Action.send, Action.setMode]⟩ := by
  cases rest with
  | nil =>
    unfold Flight.wait_and_send_next_mission
    rw [hq]
    dsimp only
    rw [if_neg hw]
    split <;> rfl
  | cons n0 rest0 =>
    unfold Flight.wait_and_send_next_mission
    rw [hq]
    dsimp only
    rw [if_neg hw]
    split <;> rfl

/-- C10 witness: a failed wait result 120 (non-timeout) with a failing
clear result 7 still hands off; the send result 0 is returned since the
mode set succeeds. -/
theorem C10_non_timeout_handoff_witness :
    (120 : Int) ≠ Controller.TIMEOUT_ERROR ∧
    mkFlight.wait_and_send_next_mission 120 7 0 0 =
      some ⟨if (0 : Int) ≠ 0 then 0 else 0,
        { mkFlight with mission_list := [] },
        ⟨.takeoffRole, 0, []⟩,
        List.headD [] mkFlight.land_mission,
        [Action.waitWaypoint (((⟨.takeoffRole, 0, []⟩ : Mission).get_length : Int) - 1) 30,
          Action.clear, Action.send, Action.setMode]⟩ :=
  ⟨by decide,
    C10_non_timeout_handoff mkFlight ⟨.takeoffRole, 0, []⟩ [] rfl 120 7 0 0 (by decide)⟩

/-- C5 counterexample: with an empty detect mission, a supplied file and a
load oracle result of 5, `append_detect_mission` returns 0 (not 5) and the
detect mission is pushed onto the queue anyway — the source discards the
load result. -/
theorem C5_load_error_counterexample :
    (mkFlight.append_detect_mission (some [sampleItem]) 5).1 = 0 ∧
    (mkFlight.append_detect_mission (some [sampleItem]) 5).1 ≠ 5 ∧
    (mkFlight.append_detect_mission (some [sampleItem]) 5).2.1.mission_list.length =
      mkFlight.mission_list.length + 1 := by decide

/-- C5 (amended): when the detect mission is empty and a file is supplied,
the load's result code is never consulted: the file is loaded, the loaded
detect mission is pushed onto the queue, and the call returns success (0)
even when the load reports a non-zero code. -/
theorem C5_load_result_ignored (f : Flight) (file : List Mission_Item)
    (load_res : Int) (h : f.detect_mission.get_length = 0) :
    f.append_detect_mission (some file) load_res =
      (0,
        { f with
            detect_mission := f.detect_mission.load_mission_from_file file 0 file.length 0,
            mission_list := f.mission_list ++
              [f.detect_mission.load_mission_from_file file 0 file.length 0] },
        [Action.load]) := by
  unfold Flight.append_detect_mission
  rw [if_pos h]

/-- C5 witness: the fresh flight with file and failing load result 5
returns 0 and pushes the loaded detect mission. -/
theorem C5_load_result_ignored_witness :
    mkFlight.detect_mission.get_length = 0 ∧
    mkFlight.append_detect_mission (some [sampleItem]) 5 =
      (0,
        { mkFlight with
            detect_mission :=
              mkFlight.detect_mission.load_mission_from_file [sampleItem] 0
                [sampleItem].length 0,
            mission_list := mkFlight.mission_list ++
              [mkFlight.detect_mission.load_mission_from_file [sampleItem] 0
                [sampleItem].length 0] },
        [Action.load]) :=
  ⟨rfl, C5_load_result_ignored mkFlight [sampleItem] 5 rfl⟩

/-- `renumber` preserves length. -/
theorem renumber_length (fs : Nat) (l : List Mission_Item) :
    (renumber fs l).length = l.length := by
  induction l generalizing fs with
  | nil => rfl
  | cons a t ih => simp [renumber, ih]

/-- The sequence numbers produced by `renumber` are consecutive from
`first_seq`. -/
theorem renumber_map_seq (fs : Nat) (l : List Mission_Item) :
    (renumber fs l).map Mission_Item.seq = List.range' fs l.length := by
  induction l generalizing fs with
  | nil => rfl
  | cons a t ih => simp [renumber, List.range'_succ, ih]

/-- Splitting a consecutive range at an interior point. -/
theorem range'_split (s m n : Nat) :
    List.range' s m ++ List.range' (s + m) n = List.range' s (m + n) := by
  have h := List.range'_append s m n 1
  rw [Nat.one_mul, Nat.add_comm n m] at h
  exact h

/-- Shape of a fully successful `build_airdrop_mission`: the airdrop
mission accumulates the renumbered file rows `[0, target_index)`, the
entry / target / exit items, and the file rows from `target_index` on
renumbered from `target_index + 3`. -/
theorem build_airdrop_success (f : Flight)
    (off : Coordinate → Rat → Rat → Coordinate) (tc : Coordinate)
    (file : List Mission_Item) (k : Nat) (altitude heading buffer : Rat) :
    f.build_airdrop_mission off tc file k altitude heading buffer 0 0 0 0 0 =
      (0, { f with airdrop_mission :=
        { f.airdrop_mission with items := (f.airdrop_mission.items ++
            renumber 0 (file.take k) ++
            [⟨k, 3, 16, 0, 1, off { tc with alt := altitude } buffer heading, 0, 0, 0, 0, 0⟩,
             ⟨k + 1, 3, 16, 0, 1, { tc with alt := altitude }, 0, 0, 0, 0, 0⟩,
             ⟨k + 2, 3, 16, 0, 1, off { tc with alt := altitude } buffer (heading + 180), 0, 0, 0, 0, 0⟩] ++
            renumber (k + 3) ((file.drop k).take (file.length - k))) } }) := by
  simp [Flight.build_airdrop_mission, Mission.load_mission_from_file,
    Mission.add_mission_item, List.append_assoc]

/-- C4: for `0 ≤ target_index = k ≤ L` (the file mission length) and an
initially empty airdrop mission, a fully successful `build_airdrop_mission`
returns 0 and produces an airdrop mission of length `k + 3 + (L - k)` whose
sequence numbers are contiguous from 0; the item at position `k + 1` is the
inserted target item carrying the supplied altitude, and the items at `k`
and `k + 2` are the inserted entry and exit items, the target offset by
`buffer_distance` at bearing `heading` and at bearing `heading + 180`
respectively. -/
theorem C4_airdrop_synthesis (f : Flight)
    (off : Coordinate → Rat → Rat → Coordinate) (tc : Coordinate)
    (file : List Mission_Item) (k : Nat) (altitude heading buffer : Rat)
    (h0 : f.airdrop_mission.items = []) (hk : k ≤ file.length) :
    (f.build_airdrop_mission off tc file k altitude heading buffer 0 0 0 0 0).1 = 0 ∧
    (f.build_airdrop_mission off tc file k altitude heading buffer
        0 0 0 0 0).2.airdrop_mission.get_length = k + 3 + (file.length - k) ∧
    ((f.build_airdrop_mission off tc file k altitude heading buffer
        0 0 0 0 0).2.airdrop_mission.items.map Mission_Item.seq) =
      List.range (k + 3 + (file.length - k)) ∧
    (f.build_airdrop_mission off tc file k altitude heading buffer
        0 0 0 0 0).2.airdrop_mission.items[k]? =
      some ⟨k, 3, 16, 0, 1, off { tc with alt := altitude } buffer heading, 0, 0, 0, 0, 0⟩ ∧
    (f.build_airdrop_mission off tc file k altitude heading buffer
        0 0 0 0 0).2.airdrop_mission.items[k + 1]? =
      some ⟨k + 1, 3, 16, 0, 1, { tc with alt := altitude }, 0, 0, 0, 0, 0⟩ ∧
    (f.build_airdrop_mission off tc file k altitude heading buffer
        0 0 0 0 0).2.airdrop_mission.items[k + 2]? =
      some ⟨k + 2, 3, 16, 0, 1, off { tc with alt := altitude } buffer (heading + 180),
        0, 0, 0, 0, 0⟩ := by
  have hb := build_airdrop_success f off tc file k altitude heading buffer
  have hsuffix : (file.drop k).take (file.length - k) = file.drop k := by
    rw [← List.length_drop, List.take_length]
  have hA : (renumber 0 (file.take k)).length = k := by
    rw [renumber_length, List.length_take, Nat.min_eq_left hk]
  rw [h0, hsuffix] at hb
  rw [hb]
  dsimp only
  simp only [List.nil_append]
  have hmap : ((renumber 0 (file.take k) ++
        ([⟨k, 3, 16, 0, 1, off { tc with alt := altitude } buffer heading, 0, 0, 0, 0, 0⟩,
          ⟨k + 1, 3, 16, 0, 1, { tc with alt := altitude }, 0, 0, 0, 0, 0⟩,
          ⟨k + 2, 3, 16, 0, 1, off { tc with alt := altitude } buffer (heading + 180),
            0, 0, 0, 0, 0⟩] : List Mission_Item) ++
        renumber (k + 3) (file.drop k)).map Mission_Item.seq) =
      List.range (k + 3 + (file.length - k)) := by
    rw [List.map_append, List.map_append, renumber_map_seq, renumber_map_seq]
    rw [List.length_take, Nat.min_eq_left hk, List.length_drop]
    have h1 : (List.map Mission_Item.seq
        ([⟨k, 3, 16, 0, 1, off { tc with alt := altitude } buffer heading, 0, 0, 0, 0, 0⟩,
          ⟨k + 1, 3, 16, 0, 1, { tc with alt := altitude }, 0, 0, 0, 0, 0⟩,
          ⟨k + 2, 3, 16, 0, 1, off { tc with alt := altitude } buffer (heading + 180),
            0, 0, 0, 0, 0⟩] : List Mission_Item)) = List.range' k 3 := rfl
    rw [h1]
    have h2 := range'_split 0 k 3
    rw [Nat.zero_add] at h2
    rw [h2]
    have h3 := range'_split 0 (k + 3) (file.length - k)
    rw [Nat.zero_add] at h3
    rw [h3, List.range_eq_range']
  refine ⟨trivial, ?_, hmap, ?_, ?_, ?_⟩
  · have hlen := congrArg List.length hmap
    rw [List.length_map, List.length_range] at hlen
    exact hlen
  · rw [List.append_assoc, List.getElem?_append_right hA.le]
    rw [hA, Nat.sub_self]
    simp
  · rw [List.append_assoc,
      List.getElem?_append_right (hA.le.trans (Nat.le_add_right k 1))]
    rw [hA, Nat.add_sub_cancel_left]
    simp
  · rw [List.append_assoc,
      List.getElem?_append_right (hA.le.trans (Nat.le_add_right k 2))]
    rw [hA, Nat.add_sub_cancel_left]
    simp

/-- C4 witness: a two-item file, target index 1, altitude 7500, heading
282, buffer 100, with a concrete offset function: the build succeeds and
the mission has length `1 + 3 + (2 - 1)`. -/
theorem C4_airdrop_synthesis_witness :
    mkFlight.airdrop_mission.items = [] ∧
    1 ≤ [sampleItem, sampleItem].length ∧
    (mkFlight.build_airdrop_mission sampleOffset sampleCoordinate
      [sampleItem, sampleItem] 1 7500 282 100 0 0 0 0 0).1 = 0 ∧
    (mkFlight.build_airdrop_mission sampleOffset sampleCoordinate
      [sampleItem, sampleItem] 1 7500 282 100 0 0 0 0 0).2.airdrop_mission.get_length =
      1 + 3 + ([sampleItem, sampleItem].length - 1) :=
  ⟨rfl, by decide,
    (C4_airdrop_synthesis mkFlight sampleOffset sampleCoordinate
      [sampleItem, sampleItem] 1 7500 282 100 rfl (by decide)).1,
    (C4_airdrop_synthesis mkFlight sampleOffset sampleCoordinate
      [sampleItem, sampleItem] 1 7500 282 100 rfl (by decide)).2.1⟩

end MavEz
